import Mathlib

/-!
Shallow embedding of `src/clean_drive_files.py`, a linear batch job that
authenticates against Microsoft Graph via an MSAL token cache, downloads
three Excel files, concatenates them with pandas, removes duplicate and
incomplete rows, writes the result locally and uploads it.

Conventions of the embedding:
* a pandas cell is `Option α` (`none` models NaN / missing; pandas
  `drop_duplicates` treats NaN cells as equal, which `Option` equality does);
* a row is the list of its cells and a `DataFrame` is named columns plus
  positional rows (list position is the pandas positional index, matching
  `ignore_index=True` concatenation and `to_excel(index=False)` output);
* external collaborators (the identity provider, the HTTP endpoints, the
  Excel parser) are parameters of the pipeline, and the pipeline returns a
  trace of its observable effects (prints, local writes, requests, exit).
-/

namespace CleanDrive

/-- One cell of a tabular dataset: `none` is a missing value (pandas NaN). -/
abbrev Cell (α : Type) := Option α

/-- A row of a tabular dataset, one cell per column. -/
abbrev Row (α : Type) := List (Cell α)

/-- In-memory table with named columns and positional rows
(`pandas.DataFrame`). -/
structure DataFrame (α : Type) where
  columns : List String
  rows : List (Row α)
deriving DecidableEq

/-- Worker for `drop_duplicates`: keeps a row iff it was not already seen,
scanning left to right, so the first occurrence of each row survives
(pandas default `keep="first"`). -/
def dropDupSeen [DecidableEq α] (seen : List (Row α)) : List (Row α) → List (Row α)
  | [] => []
  | r :: rest =>
      if r ∈ seen then dropDupSeen seen rest
      else r :: dropDupSeen (r :: seen) rest

/-- Embedding of `DataFrame.drop_duplicates()` on the row list: remove exact full-row
duplicates, keeping the first occurrence, over the original column set. -/
def drop_duplicates [DecidableEq α] (rows : List (Row α)) : List (Row α) :=
  dropDupSeen [] rows

/-- A row is complete when no cell is missing. -/
def rowComplete (r : Row α) : Bool := r.all Option.isSome

/-- Embedding of `DataFrame.dropna()` on the row list: remove every row that has a
missing value in any column. -/
def dropna (rows : List (Row α)) : List (Row α) :=
  rows.filter rowComplete

/-- The cleaning step of line 136, `combined_df.drop_duplicates().dropna()`:
dedup first, then drop incomplete rows. -/
def cleanRows [DecidableEq α] (rows : List (Row α)) : List (Row α) :=
  dropna (drop_duplicates rows)

/-- The cleaning step on a whole table: pandas row reductions keep the
column set unchanged. -/
def cleanDF [DecidableEq α] (df : DataFrame α) : DataFrame α :=
  ⟨df.columns, cleanRows df.rows⟩

/-- Embedding of `pd.concat(dataframes, ignore_index=True)` on the row lists: rows of the
inputs in list order, re-indexed positionally (which a list is by nature). -/
def concatRows (dfs : List (DataFrame α)) : List (Row α) :=
  (dfs.map DataFrame.rows).flatten

/-- Embedding of `pd.concat(dataframes, ignore_index=True)` under the assumed
shared column schema: columns of the first input, rows concatenated. -/
def concatDF (dfs : List (DataFrame α)) : DataFrame α :=
  ⟨(match dfs with | [] => [] | d :: _ => d.columns), concatRows dfs⟩

section DedupLemmas

variable {α : Type} [DecidableEq α]

theorem dropDupSeen_sublist (seen : List (Row α)) (l : List (Row α)) :
    List.Sublist (dropDupSeen seen l) l := by
  induction l generalizing seen with
  | nil => simp [dropDupSeen]
  | cons r rest ih =>
      by_cases h : r ∈ seen
      · simp only [dropDupSeen, if_pos h]
        exact (ih seen).cons r
      · simp only [dropDupSeen, if_neg h]
        exact (ih (r :: seen)).cons₂ r

theorem mem_dropDupSeen (seen l : List (Row α)) (x : Row α) :
    x ∈ dropDupSeen seen l ↔ x ∈ l ∧ x ∉ seen := by
  induction l generalizing seen with
  | nil => simp [dropDupSeen]
  | cons r rest ih =>
      by_cases h : r ∈ seen
      · rw [dropDupSeen, if_pos h, ih]
        constructor
        · rintro ⟨hx, hns⟩
          exact ⟨List.mem_cons_of_mem r hx, hns⟩
        · rintro ⟨hx, hns⟩
          rcases List.mem_cons.1 hx with rfl | hx'
          · exact absurd h hns
          · exact ⟨hx', hns⟩
      · rw [dropDupSeen, if_neg h]
        constructor
        · intro hx
          rcases List.mem_cons.1 hx with rfl | hx'
          · exact ⟨List.mem_cons_self x rest, h⟩
          · obtain ⟨h1, h2⟩ := (ih (r :: seen)).1 hx'
            exact ⟨List.mem_cons_of_mem r h1,
              fun hc => h2 (List.mem_cons_of_mem r hc)⟩
        · rintro ⟨hx, hns⟩
          rcases List.mem_cons.1 hx with rfl | hx'
          · exact List.mem_cons_self x _
          · by_cases hxr : x = r
            · exact hxr ▸ List.mem_cons_self r _
            · refine List.mem_cons_of_mem r ((ih (r :: seen)).2 ⟨hx', ?_⟩)
              intro hc
              rcases List.mem_cons.1 hc with h1 | h1
              · exact hxr h1
              · exact hns h1

theorem nodup_dropDupSeen (seen l : List (Row α)) :
    (dropDupSeen seen l).Nodup := by
  induction l generalizing seen with
  | nil => simp [dropDupSeen]
  | cons r rest ih =>
      by_cases h : r ∈ seen
      · simpa only [dropDupSeen, if_pos h] using ih seen
      · simp only [dropDupSeen, if_neg h, List.nodup_cons]
        refine ⟨fun hc => ?_, ih (r :: seen)⟩
        exact ((mem_dropDupSeen _ _ _).1 hc).2 (List.mem_cons_self r seen)

theorem dropDupSeen_eq_self (seen l : List (Row α)) (hnd : l.Nodup)
    (hdisj : ∀ x ∈ l, x ∉ seen) : dropDupSeen seen l = l := by
  induction l generalizing seen with
  | nil => simp [dropDupSeen]
  | cons r rest ih =>
      have hr : r ∉ seen := hdisj r (List.mem_cons_self r rest)
      simp only [dropDupSeen, if_neg hr]
      have hnd' := (List.nodup_cons.1 hnd)
      refine congrArg (r :: ·) (ih (r :: seen) hnd'.2 fun x hx => ?_)
      simp only [List.mem_cons, not_or]
      exact ⟨fun hxr => hnd'.1 (hxr ▸ hx), hdisj x (List.mem_cons_of_mem r hx)⟩

theorem nodup_drop_duplicates (l : List (Row α)) :
    (drop_duplicates l).Nodup :=
  nodup_dropDupSeen [] l

theorem drop_duplicates_eq_self (l : List (Row α)) (hnd : l.Nodup) :
    drop_duplicates l = l :=
  dropDupSeen_eq_self [] l hnd (by simp)

/-- Removing a later copy: if `x` is already in `seen`, the scan of
`l₁ ++ x :: l₂` never keeps that `x`. -/
theorem dropDupSeen_append_mem (seen l₁ l₂ : List (Row α)) (x : Row α)
    (hx : x ∈ seen) :
    dropDupSeen seen (l₁ ++ x :: l₂) = dropDupSeen seen (l₁ ++ l₂) := by
  induction l₁ generalizing seen with
  | nil => simp [dropDupSeen, hx]
  | cons b l₁ ih =>
      by_cases hb : b ∈ seen
      · simp only [List.cons_append, dropDupSeen, if_pos hb]
        exact ih seen hx
      · simp only [List.cons_append, dropDupSeen, if_neg hb]
        exact congrArg (b :: ·) (ih (b :: seen) (List.mem_cons_of_mem b hx))

/-- Keep-first: a row that already occurred in the prefix is dropped by
`drop_duplicates`, so the first occurrence is the one that survives. -/
theorem dropDupSeen_keep_first (seen p s : List (Row α)) (x : Row α)
    (hx : x ∈ p) :
    dropDupSeen seen (p ++ x :: s) = dropDupSeen seen (p ++ s) := by
  induction p generalizing seen with
  | nil => cases hx
  | cons b p ih =>
      rcases List.mem_cons.1 hx with rfl | hx'
      · by_cases hb : x ∈ seen
        · simp only [List.cons_append, dropDupSeen, if_pos hb]
          exact dropDupSeen_append_mem seen p s x hb
        · simp only [List.cons_append, dropDupSeen, if_neg hb]
          exact congrArg (x :: ·)
            (dropDupSeen_append_mem (x :: seen) p s x (List.mem_cons_self x seen))
      · by_cases hb : b ∈ seen
        · simp only [List.cons_append, dropDupSeen, if_pos hb]
          exact ih seen hx'
        · simp only [List.cons_append, dropDupSeen, if_neg hb]
          exact congrArg (b :: ·) (ih (b :: seen) hx')

omit [DecidableEq α] in
theorem mem_dropna (rows : List (Row α)) (r : Row α) :
    r ∈ dropna rows ↔ r ∈ rows ∧ rowComplete r = true := by
  simp [dropna, List.mem_filter]

theorem cleanRows_nodup (rows : List (Row α)) : (cleanRows rows).Nodup :=
  (nodup_drop_duplicates rows).filter rowComplete

theorem mem_cleanRows_complete (rows : List (Row α)) (r : Row α)
    (hr : r ∈ cleanRows rows) : rowComplete r = true :=
  (List.mem_filter.1 hr).2

theorem dropna_cleanRows (rows : List (Row α)) :
    dropna (cleanRows rows) = cleanRows rows :=
  List.filter_eq_self.2 fun r hr => mem_cleanRows_complete rows r hr

theorem cleanRows_idempotent (rows : List (Row α)) :
    cleanRows (cleanRows rows) = cleanRows rows := by
  have h1 : drop_duplicates (cleanRows rows) = cleanRows rows :=
    drop_duplicates_eq_self _ (cleanRows_nodup rows)
  calc cleanRows (cleanRows rows)
      = dropna (drop_duplicates (cleanRows rows)) := rfl
    _ = dropna (cleanRows rows) := by rw [h1]
    _ = cleanRows rows := dropna_cleanRows rows

theorem cleanRows_sublist (rows : List (Row α)) :
    List.Sublist (cleanRows rows) rows :=
  (List.filter_sublist _).trans (dropDupSeen_sublist [] rows)

end DedupLemmas

/-! ## The pipeline around the cleaning step

The script is straight-line code with three external collaborators: the
MSAL identity provider (`app.get_accounts` / `app.acquire_token_silent`),
the Graph HTTP endpoints (`requests.get` / `requests.put`) and the Excel
parser (`pd.read_excel`). `Env` packages those collaborators; `runPipeline`
is the top-to-bottom control flow of the script, returning a `RunResult` trace of
every observable effect. -/

/-- One entry of `files_to_process`: logical name and remote address. -/
structure FileInfo where
  name : String
  url : String
deriving DecidableEq

/-- An HTTP response as the script consumes it: status code, raw body bytes
(`response.content`) and body text (`response.text`). -/
structure HttpResponse where
  status_code : Nat
  content : List Nat
  text : String
deriving DecidableEq

/-- The hardcoded three-entry download list (lines 90-103), with the URL
pattern `{root}/{user}/drive/root:/Smart_Ops_Lab_Vosyn/excel_k/filek.xlsx:/content`. -/
def files_to_process (user_email : String) : List FileInfo :=
  [ { name := "file1.xlsx",
      url := "https://graph.microsoft.com/v1.0/users/" ++ user_email ++
        "/drive/root:/Smart_Ops_Lab_Vosyn/excel_1/file1.xlsx:/content" },
    { name := "file2.xlsx",
      url := "https://graph.microsoft.com/v1.0/users/" ++ user_email ++
        "/drive/root:/Smart_Ops_Lab_Vosyn/excel_2/file2.xlsx:/content" },
    { name := "file3.xlsx",
      url := "https://graph.microsoft.com/v1.0/users/" ++ user_email ++
        "/drive/root:/Smart_Ops_Lab_Vosyn/excel_3/file3.xlsx:/content" } ]

/-- Mutable state threaded through the download loop: the files persisted
under `DOWNLOAD_PATH` (keyed by file name, with the bytes written), the
`dataframes` working list, and the log lines printed so far. -/
structure FetchState (α : Type) where
  written : List (String × List Nat)
  dataframes : List (DataFrame α)
  printed : List String
deriving DecidableEq

/-- One iteration of the download loop (lines 108-127): GET the file URL;
on a non-200 status log the error and `continue` (no write, no append);
on 200 write the bytes locally, parse them with `read_excel` and append
the dataframe. -/
def processFile (get : String → HttpResponse) (read_excel : List Nat → DataFrame α)
    (st : FetchState α) (file_info : FileInfo) : FetchState α :=
  let response := get file_info.url
  if response.status_code ≠ 200 then
    { st with printed := st.printed ++
        ["Error al descargar " ++ file_info.name ++ ": " ++
          toString response.status_code ++ " - " ++ response.text] }
  else
    { written := st.written ++ [(file_info.name, response.content)],
      dataframes := st.dataframes ++ [read_excel response.content],
      printed := st.printed ++ ["Guardado en " ++ file_info.name] }

/-- The whole download loop, starting from empty download directory state
and an empty `dataframes` list. -/
def fetchLoop (get : String → HttpResponse) (read_excel : List Nat → DataFrame α)
    (files : List FileInfo) : FetchState α :=
  files.foldl (processFile get read_excel) ⟨[], [], []⟩

/-- Function `save_cache` (lines 37-40), registered with `atexit`: rewrite the cache
file iff the in-memory cache reports a state change; otherwise the on-disk
file is not touched. Returns the write performed, if any. -/
def save_cache (has_state_changed : Bool) (serialized : String) : Option String :=
  if has_state_changed then some serialized else none

/-- The external collaborators and ambient state of one run. `accounts` and
`acquireTokenSilent` model the MSAL client over the loaded cache; `get`,
`read_excel` and `put` model the network and parser; the two cache fields
model the `SerializableTokenCache` at process exit. -/
structure Env (α : Type) where
  user_email : String
  accounts : List String
  acquireTokenSilent : String → Option String
  get : String → HttpResponse
  read_excel : List Nat → DataFrame α
  put : String → HttpResponse
  cache_has_state_changed : Bool
  cache_serialized : String

/-- The fixed upload target (line 147). -/
def upload_url (user_email : String) : String :=
  "https://graph.microsoft.com/v1.0/users/" ++ user_email ++
    "/drive/root:/Smart_Ops_Lab_Vosyn/clean_excel/combined_cleaned.xlsx:/content"

/-- Observable outcome of one run. `exitCode` is the process exit status:
a bare Python `exit()` raises `SystemExit(None)`, which terminates with
status 0, and falling off the end of the script also gives 0. `earlyExit`
records termination at the authentication stage. `getUrls` lists every
download GET issued, `written` the files persisted under `DOWNLOAD_PATH`,
`cleanedFileWritten` the local `to_excel` write, `uploadAttempts` how many
PUTs were issued, `uploadSuccess` the verdict of the script on the upload,
and `cacheFileWritten` the `atexit` cache write. -/
structure RunResult (α : Type) where
  exitCode : Nat
  earlyExit : Bool
  printed : List String
  getUrls : List String
  written : List (String × List Nat)
  combined : Option (DataFrame α)
  cleanedFileWritten : Option (String × DataFrame α)
  uploadAttempts : Nat
  uploadSuccess : Option Bool
  cacheFileWritten : Option String

/-- Lines 104-158: the download loop followed by the `if dataframes:` guard;
if anything was collected, concat + clean + local `to_excel` write + one PUT
judged by `status_code in [200, 201]`; otherwise only the skip message is
printed and nothing is written or uploaded. -/
def mainStage {α : Type} [DecidableEq α] (env : Env α) (cacheW : Option String) :
    RunResult α :=
  if (fetchLoop env.get env.read_excel
      (files_to_process env.user_email)).dataframes.isEmpty then
    { exitCode := 0, earlyExit := false,
      printed := (fetchLoop env.get env.read_excel
          (files_to_process env.user_email)).printed ++
        ["No se descargaron archivos. No hay datos para procesar."],
      getUrls := (files_to_process env.user_email).map FileInfo.url,
      written := (fetchLoop env.get env.read_excel
        (files_to_process env.user_email)).written,
      combined := none, cleanedFileWritten := none,
      uploadAttempts := 0, uploadSuccess := none,
      cacheFileWritten := cacheW }
  else
    { exitCode := 0, earlyExit := false,
      printed := (fetchLoop env.get env.read_excel
          (files_to_process env.user_email)).printed ++
        (if decide ((env.put (upload_url env.user_email)).status_code ∈
            ([200, 201] : List Nat)) then
          ["Proceso completado exitosamente."]
         else
          ["Error subiendo el archivo limpio: " ++
             toString (env.put (upload_url env.user_email)).status_code ++
             " - " ++ (env.put (upload_url env.user_email)).text]),
      getUrls := (files_to_process env.user_email).map FileInfo.url,
      written := (fetchLoop env.get env.read_excel
        (files_to_process env.user_email)).written,
      combined := some (concatDF (fetchLoop env.get env.read_excel
        (files_to_process env.user_email)).dataframes),
      cleanedFileWritten := some ("combined_cleaned.xlsx",
        cleanDF (concatDF (fetchLoop env.get env.read_excel
          (files_to_process env.user_email)).dataframes)),
      uploadAttempts := 1,
      uploadSuccess := some (decide
        ((env.put (upload_url env.user_email)).status_code ∈
          ([200, 201] : List Nat))),
      cacheFileWritten := cacheW }

/-- The script end to end (lines 62-158 plus the `atexit` hook): silent
authentication or `exit()` (Python `exit()` exits with status 0); then the
download loop and the processing stage. The `atexit` cache save runs on
every path, early exits included. -/
def runPipeline {α : Type} [DecidableEq α] (env : Env α) : RunResult α :=
  match env.accounts with
  | [] =>
      { exitCode := 0, earlyExit := true,
        printed := ["ERROR: No se encontro ninguna cuenta en la cache."],
        getUrls := [], written := [], combined := none,
        cleanedFileWritten := none, uploadAttempts := 0,
        uploadSuccess := none,
        cacheFileWritten :=
          save_cache env.cache_has_state_changed env.cache_serialized }
  | account :: _ =>
      match env.acquireTokenSilent account with
      | none =>
          { exitCode := 0, earlyExit := true,
            printed := ["ERROR: No se pudo obtener token de acceso."],
            getUrls := [], written := [], combined := none,
            cleanedFileWritten := none, uploadAttempts := 0,
            uploadSuccess := none,
            cacheFileWritten :=
              save_cache env.cache_has_state_changed env.cache_serialized }
      | some _token =>
          mainStage env
            (save_cache env.cache_has_state_changed env.cache_serialized)

/-- A download in the loop succeeds when the GET returns status 200
(line 115: anything else is skipped with `continue`). -/
def downloadOk (get : String → HttpResponse) (f : FileInfo) : Bool :=
  (get f.url).status_code == 200

section LoopLemmas

variable {α : Type}

theorem foldl_processFile_written (get : String → HttpResponse)
    (read_excel : List Nat → DataFrame α) (files : List FileInfo)
    (st : FetchState α) :
    (files.foldl (processFile get read_excel) st).written =
      st.written ++ (files.filter (downloadOk get)).map
        (fun f => (f.name, (get f.url).content)) := by
  induction files generalizing st with
  | nil => simp
  | cons f rest ih =>
      rw [List.foldl_cons, ih]
      by_cases h : (get f.url).status_code = 200
      · simp [processFile, downloadOk, h, List.filter_cons]
      · simp [processFile, downloadOk, h, List.filter_cons]

theorem foldl_processFile_dataframes (get : String → HttpResponse)
    (read_excel : List Nat → DataFrame α) (files : List FileInfo)
    (st : FetchState α) :
    (files.foldl (processFile get read_excel) st).dataframes =
      st.dataframes ++ (files.filter (downloadOk get)).map
        (fun f => read_excel (get f.url).content) := by
  induction files generalizing st with
  | nil => simp
  | cons f rest ih =>
      rw [List.foldl_cons, ih]
      by_cases h : (get f.url).status_code = 200
      · simp [processFile, downloadOk, h, List.filter_cons]
      · simp [processFile, downloadOk, h, List.filter_cons]

theorem fetchLoop_written (get : String → HttpResponse)
    (read_excel : List Nat → DataFrame α) (files : List FileInfo) :
    (fetchLoop get read_excel files).written =
      (files.filter (downloadOk get)).map
        (fun f => (f.name, (get f.url).content)) := by
  rw [fetchLoop, foldl_processFile_written]
  rfl

theorem fetchLoop_dataframes (get : String → HttpResponse)
    (read_excel : List Nat → DataFrame α) (files : List FileInfo) :
    (fetchLoop get read_excel files).dataframes =
      (files.filter (downloadOk get)).map
        (fun f => read_excel (get f.url).content) := by
  rw [fetchLoop, foldl_processFile_dataframes]
  rfl

end LoopLemmas

section PipelineLemmas

variable {α : Type} [DecidableEq α]

theorem runPipeline_eq_mainStage (env : Env α) (a t : String)
    (rest : List String) (ha : env.accounts = a :: rest)
    (ht : env.acquireTokenSilent a = some t) :
    runPipeline env =
      mainStage env
        (save_cache env.cache_has_state_changed env.cache_serialized) := by
  unfold runPipeline
  simp only [ha, ht]

theorem mainStage_cleaned_of_combined (env : Env α) (cw : Option String)
    (c : DataFrame α) (h : (mainStage env cw).combined = some c) :
    (mainStage env cw).cleanedFileWritten =
      some ("combined_cleaned.xlsx", cleanDF c) := by
  unfold mainStage at h ⊢
  by_cases hdf : (fetchLoop env.get env.read_excel
      (files_to_process env.user_email)).dataframes.isEmpty = true
  · rw [if_pos hdf] at h
    exact absurd h (by simp)
  · rw [if_neg hdf] at h ⊢
    have h' : some (concatDF (fetchLoop env.get env.read_excel
        (files_to_process env.user_email)).dataframes) = some c := h
    rw [Option.some_inj] at h'
    show some ("combined_cleaned.xlsx",
      cleanDF (concatDF (fetchLoop env.get env.read_excel
        (files_to_process env.user_email)).dataframes)) = _
    rw [h']

end PipelineLemmas

section PipelineLemmas2

variable {α : Type} [DecidableEq α]

theorem mainStage_cacheFileWritten (env : Env α) (cw : Option String) :
    (mainStage env cw).cacheFileWritten = cw := by
  unfold mainStage
  split <;> rfl

/-- The authentication stage fails when no account is cached, or the silent
token acquisition for the first cached account returns nothing
(lines 62-75). -/
def authFails (env : Env α) : Bool :=
  match env.accounts with
  | [] => true
  | account :: _ => (env.acquireTokenSilent account).isNone

end PipelineLemmas2

/-! ## Concrete environments used by the witnesses -/

/-- Concrete Excel parser for the test environments: each byte of the
downloaded file becomes one single-column row. -/
def bytesToDF (bs : List Nat) : DataFrame Nat :=
  ⟨["col"], bs.map (fun b => [some b])⟩

/-- The remote address of `file2.xlsx` for user `u`. -/
def url2 : String :=
  "https://graph.microsoft.com/v1.0/users/u/drive/root:/Smart_Ops_Lab_Vosyn/excel_2/file2.xlsx:/content"

/-- The remote address of `file1.xlsx` for user `u`. -/
def url1 : String :=
  "https://graph.microsoft.com/v1.0/users/u/drive/root:/Smart_Ops_Lab_Vosyn/excel_1/file1.xlsx:/content"

/-- Environment where the download of `file2.xlsx` answers 404 and the other
two downloads succeed; the upload answers 201. -/
def envOneFail : Env Nat :=
  { user_email := "u", accounts := ["acct"],
    acquireTokenSilent := fun _ => some "tok",
    get := fun u =>
      if u = url2 then ⟨404, [], "not found"⟩
      else if u = url1 then ⟨200, [7, 8], "ok"⟩
      else ⟨200, [9], "ok"⟩,
    read_excel := bytesToDF,
    put := fun _ => ⟨201, [], "created"⟩,
    cache_has_state_changed := false, cache_serialized := "cache" }

/-- Environment where every download answers 404. -/
def envAllFail : Env Nat :=
  { user_email := "u", accounts := ["acct"],
    acquireTokenSilent := fun _ => some "tok",
    get := fun _ => ⟨404, [], "not found"⟩,
    read_excel := bytesToDF,
    put := fun _ => ⟨201, [], "created"⟩,
    cache_has_state_changed := false, cache_serialized := "cache" }

/-- Environment where downloads succeed and the upload answers 204. -/
def env204 : Env Nat :=
  { user_email := "u", accounts := ["acct"],
    acquireTokenSilent := fun _ => some "tok",
    get := fun _ => ⟨200, [7], "ok"⟩,
    read_excel := bytesToDF,
    put := fun _ => ⟨204, [], "no content"⟩,
    cache_has_state_changed := false, cache_serialized := "cache" }

/-- Environment where downloads succeed and the upload answers 403. -/
def env403 : Env Nat :=
  { user_email := "u", accounts := ["acct"],
    acquireTokenSilent := fun _ => some "tok",
    get := fun _ => ⟨200, [7], "ok"⟩,
    read_excel := bytesToDF,
    put := fun _ => ⟨403, [], "Forbidden"⟩,
    cache_has_state_changed := false, cache_serialized := "cache" }

/-- Environment with an empty credential cache (no account). -/
def envNoAccount : Env Nat :=
  { user_email := "u", accounts := [],
    acquireTokenSilent := fun _ => none,
    get := fun _ => ⟨200, [], "ok"⟩,
    read_excel := bytesToDF,
    put := fun _ => ⟨200, [], "ok"⟩,
    cache_has_state_changed := false, cache_serialized := "cache" }

/-- Environment with a cached account whose silent token refresh fails. -/
def envNoToken : Env Nat :=
  { user_email := "u", accounts := ["acct"],
    acquireTokenSilent := fun _ => none,
    get := fun _ => ⟨200, [], "ok"⟩,
    read_excel := bytesToDF,
    put := fun _ => ⟨200, [], "ok"⟩,
    cache_has_state_changed := false, cache_serialized := "cache" }

/-- Environment for a fully successful run, with a changed cache state. -/
def envOk : Env Nat :=
  { user_email := "u", accounts := ["acct"],
    acquireTokenSilent := fun _ => some "tok",
    get := fun _ => ⟨200, [5, 5], "ok"⟩,
    read_excel := bytesToDF,
    put := fun _ => ⟨201, [], "created"⟩,
    cache_has_state_changed := true, cache_serialized := "newcache" }

end CleanDrive

namespace CleanDriveClaims

open CleanDrive

/-- C1, counterexample. The claim: with two copies of a row, one carrying a
null in the duplicated position, the surviving copy is the first occurrence
regardless of null status. Take the table whose rows are `(1, null)` then
`(1, 2)`: `drop_duplicates` keeps both (they are not equal rows), `dropna`
removes the null-bearing first copy, so the survivor is the SECOND
occurrence, not the first. -/
theorem c1_counterexample :
    cleanRows ([[some 1, none], [some 1, some 2]] : List (Row Nat)) =
      [[some 1, some 2]] ∧
    cleanRows ([[some 1, none], [some 1, some 2]] : List (Row Nat)) ≠
      [[some 1, none]] := by
  decide

/-- C1, amended. Cleaning is exactly the two sequential unconditional
reductions in this order — `drop_duplicates` (keep-first over the original
column set: a row repeating an earlier row is dropped) then `dropna`
(filter out incomplete rows) — and in the two-copy scenario exactly one
occurrence is retained, namely the complete copy, whichever of the two
positions it occupies. -/
theorem c1_cleaning_order {α : Type} [DecidableEq α] (r rn : Row α)
    (hr : rowComplete r = true) (hrn : rowComplete rn = false) :
    (∀ rows : List (Row α), cleanRows rows = dropna (drop_duplicates rows)) ∧
    (∀ (p s : List (Row α)) (x : Row α), x ∈ p →
      drop_duplicates (p ++ x :: s) = drop_duplicates (p ++ s)) ∧
    (∀ rows : List (Row α), dropna rows = rows.filter rowComplete) ∧
    cleanRows [r, rn] = [r] ∧ cleanRows [rn, r] = [r] := by
  have hne : r ≠ rn := by
    intro h
    rw [h, hrn] at hr
    exact Bool.noConfusion hr
  refine ⟨fun rows => rfl,
    fun p s x hx => dropDupSeen_keep_first [] p s x hx,
    fun rows => rfl, ?_, ?_⟩
  · simp [cleanRows, drop_duplicates, dropDupSeen, dropna, List.filter,
      hr, hrn, hne.symm]
  · simp [cleanRows, drop_duplicates, dropDupSeen, dropna, List.filter,
      hr, hrn, hne]

/-- C1, witness for the amended theorem at the rows `(1, 2)` and
`(1, null)`. -/
theorem c1_witness :
    rowComplete ([some 1, some 2] : Row Nat) = true ∧
    rowComplete ([some 1, none] : Row Nat) = false ∧
    cleanRows ([[some 1, some 2], [some 1, none]] : List (Row Nat)) =
      [[some 1, some 2]] := by
  refine ⟨by decide, by decide, ?_⟩
  exact (c1_cleaning_order [some 1, some 2] [some 1, none]
    (by decide) (by decide)).2.2.2.1

/-- C2: the cleaning step enforces row uniqueness and completeness — the
cleaned table has no two equal rows and no row with a missing value in any
column. -/
theorem c2_cleaned_invariants {α : Type} [DecidableEq α] (df : DataFrame α) :
    (cleanDF df).rows.Nodup ∧
    ∀ r ∈ (cleanDF df).rows, rowComplete r = true :=
  ⟨cleanRows_nodup df.rows, fun r hr => mem_cleanRows_complete df.rows r hr⟩

/-- C2, witness on a concrete table with a duplicate and a null row. -/
theorem c2_witness :
    (cleanDF (⟨["a"], [[some 1], [some 1], [none]]⟩ : DataFrame Nat)).rows.Nodup ∧
    rowComplete ([some 1] : Row Nat) = true := by
  refine ⟨(c2_cleaned_invariants _).1,
    (c2_cleaned_invariants (⟨["a"], [[some 1], [some 1], [none]]⟩ : DataFrame Nat)).2
      [some 1] ?_⟩
  decide

/-- C3: the dedup-then-null-drop reduction is idempotent on whole tables. -/
theorem c3_cleaning_idempotent {α : Type} [DecidableEq α] (df : DataFrame α) :
    cleanDF (cleanDF df) = cleanDF df := by
  simp [cleanDF, cleanRows_idempotent]

/-- C9: cleaning only removes whole rows — the cleaned table written by the
pipeline is `cleanDF` of the combined table, its rows are a subsequence of
the combined rows (order and cell values preserved), and its column set is
exactly that of the combined table. -/
theorem c9_clean_row_subsequence {α : Type} [DecidableEq α] (env : Env α)
    (c : DataFrame α) (h : (runPipeline env).combined = some c) :
    (runPipeline env).cleanedFileWritten =
      some ("combined_cleaned.xlsx", cleanDF c) ∧
    List.Sublist (cleanDF c).rows c.rows ∧
    (cleanDF c).columns = c.columns := by
  refine ⟨?_, cleanRows_sublist c.rows, rfl⟩
  cases henv : env.accounts with
  | nil =>
      unfold runPipeline at h
      simp only [henv] at h
      exact absurd h (by simp)
  | cons a rest =>
      cases htok : env.acquireTokenSilent a with
      | none =>
          unfold runPipeline at h
          simp only [henv, htok] at h
          exact absurd h (by simp)
      | some t =>
          rw [runPipeline_eq_mainStage env a t rest henv htok] at h ⊢
          exact mainStage_cleaned_of_combined env _ c h

/-- C9, witness: a run where every download succeeds; the cleaned file
written is `cleanDF` of the combined table, whose cleaned rows are a
subsequence of the combined rows. -/
theorem c9_witness :
    (runPipeline envOk).combined =
      some (⟨["col"], [[some 5], [some 5], [some 5], [some 5], [some 5],
        [some 5]]⟩ : DataFrame Nat) ∧
    (runPipeline envOk).cleanedFileWritten =
      some ("combined_cleaned.xlsx",
        cleanDF (⟨["col"], [[some 5], [some 5], [some 5], [some 5], [some 5],
          [some 5]]⟩ : DataFrame Nat)) ∧
    List.Sublist
      (cleanDF (⟨["col"], [[some 5], [some 5], [some 5], [some 5], [some 5],
        [some 5]]⟩ : DataFrame Nat)).rows
      [[some 5], [some 5], [some 5], [some 5], [some 5], [some 5]] := by
  have hcomb : (runPipeline envOk).combined =
      some (⟨["col"], [[some 5], [some 5], [some 5], [some 5], [some 5],
        [some 5]]⟩ : DataFrame Nat) := by decide
  have h := c9_clean_row_subsequence envOk _ hcomb
  exact ⟨hcomb, h.1, h.2.1⟩

/-- C4: a failed download is non-fatal — the pipeline continues and the
combined table is the successful datasets concatenated in list order, with
a purely positional index (a row list), so its row count is the sum of the
row counts of the successful datasets. -/
theorem c4_download_resilience {α : Type} [DecidableEq α]
    (env : Env α) (a t : String) (rest : List String)
    (ha : env.accounts = a :: rest) (ht : env.acquireTokenSilent a = some t)
    (hne : (files_to_process env.user_email).filter (downloadOk env.get) ≠ []) :
    (runPipeline env).combined =
      some (concatDF (((files_to_process env.user_email).filter
        (downloadOk env.get)).map
          (fun f => env.read_excel (env.get f.url).content))) ∧
    (∀ dfs : List (DataFrame α),
      (concatDF dfs).rows = (dfs.map DataFrame.rows).flatten ∧
      (concatDF dfs).rows.length =
        (dfs.map (fun d => d.rows.length)).sum) := by
  constructor
  · have hne' : ¬ ((fetchLoop env.get env.read_excel
        (files_to_process env.user_email)).dataframes.isEmpty = true) := by
      intro hempty
      rw [fetchLoop_dataframes] at hempty
      rw [List.isEmpty_iff] at hempty
      exact hne (List.map_eq_nil_iff.mp hempty)
    rw [runPipeline_eq_mainStage env a t rest ha ht]
    unfold mainStage
    rw [if_neg hne']
    show some (concatDF (fetchLoop env.get env.read_excel
      (files_to_process env.user_email)).dataframes) = _
    rw [fetchLoop_dataframes]
  · intro dfs
    refine ⟨rfl, ?_⟩
    show ((dfs.map DataFrame.rows).flatten).length = _
    rw [List.length_flatten, List.map_map]
    rfl

/-- C4, witness: three configured files, the download of `file2.xlsx`
failing with 404; the combined table is the two successful datasets
concatenated (three rows: two from file1, one from file3). -/
theorem c4_witness :
    (runPipeline envOneFail).combined =
      some (concatDF (((files_to_process envOneFail.user_email).filter
        (downloadOk envOneFail.get)).map
          (fun f => envOneFail.read_excel (envOneFail.get f.url).content))) ∧
    (concatDF [bytesToDF [7, 8], bytesToDF [9]]).rows.length =
      ([bytesToDF [7, 8], bytesToDF [9]].map (fun d => d.rows.length)).sum ∧
    (runPipeline envOneFail).combined =
      some (⟨["col"], [[some 7], [some 8], [some 9]]⟩ : DataFrame Nat) := by
  have h := c4_download_resilience envOneFail "acct" "tok" []
    rfl rfl (by decide)
  refine ⟨h.1, (h.2 [bytesToDF [7, 8], bytesToDF [9]]).2, ?_⟩
  rw [h.1]
  decide

/-- C5: if every download failed (the `dataframes` list stays empty), the
merge/clean and publish stages are skipped: no combined table, no cleaned
file written, no upload request, and the run ends normally (exit status 0,
no early exit) — a no-op, not an error. -/
theorem c5_all_fail_noop {α : Type} [DecidableEq α]
    (env : Env α) (a t : String) (rest : List String)
    (ha : env.accounts = a :: rest) (ht : env.acquireTokenSilent a = some t)
    (hfail : (files_to_process env.user_email).filter (downloadOk env.get) = []) :
    (runPipeline env).combined = none ∧
    (runPipeline env).cleanedFileWritten = none ∧
    (runPipeline env).uploadAttempts = 0 ∧
    (runPipeline env).exitCode = 0 ∧
    (runPipeline env).earlyExit = false := by
  have hempty : (fetchLoop env.get env.read_excel
      (files_to_process env.user_email)).dataframes.isEmpty = true := by
    rw [fetchLoop_dataframes, hfail]
    rfl
  rw [runPipeline_eq_mainStage env a t rest ha ht]
  unfold mainStage
  rw [if_pos hempty]
  exact ⟨rfl, rfl, rfl, rfl, rfl⟩

/-- C5, witness: all three downloads answer 404; nothing is combined,
written or uploaded and the run completes with status 0. -/
theorem c5_witness :
    (runPipeline envAllFail).combined = none ∧
    (runPipeline envAllFail).cleanedFileWritten = none ∧
    (runPipeline envAllFail).uploadAttempts = 0 ∧
    (runPipeline envAllFail).exitCode = 0 ∧
    (runPipeline envAllFail).earlyExit = false :=
  c5_all_fail_noop envAllFail "acct" "tok" [] rfl rfl (by decide)

/-- C6, counterexample. The claim judges success by the HTTP-success status
class; 204 No Content is in that class (2xx), yet the script checks
`status_code in [200, 201]` and records this upload as a failure. -/
theorem c6_counterexample :
    200 ≤ 204 ∧ 204 < 300 ∧
    (runPipeline env204).uploadAttempts = 1 ∧
    (runPipeline env204).uploadSuccess = some false := by
  exact ⟨by decide, by decide, by decide, by decide⟩

/-- C6 (amended): upload success is judged by membership in {200, 201}
(not the whole 2xx class); on any other status the failure is logged
together with the response body, and exactly one upload attempt is ever
made — no retry. -/
theorem c6_upload_status {α : Type} [DecidableEq α]
    (env : Env α) (a t : String) (rest : List String)
    (ha : env.accounts = a :: rest) (ht : env.acquireTokenSilent a = some t)
    (hne : (files_to_process env.user_email).filter (downloadOk env.get) ≠ []) :
    (runPipeline env).uploadAttempts = 1 ∧
    ((runPipeline env).uploadSuccess = some true ↔
      (env.put (upload_url env.user_email)).status_code = 200 ∨
      (env.put (upload_url env.user_email)).status_code = 201) ∧
    ((env.put (upload_url env.user_email)).status_code ≠ 200 →
      (env.put (upload_url env.user_email)).status_code ≠ 201 →
      ("Error subiendo el archivo limpio: " ++
        toString (env.put (upload_url env.user_email)).status_code ++
        " - " ++ (env.put (upload_url env.user_email)).text) ∈
        (runPipeline env).printed) := by
  have hne' : ¬ ((fetchLoop env.get env.read_excel
      (files_to_process env.user_email)).dataframes.isEmpty = true) := by
    intro hempty
    rw [fetchLoop_dataframes] at hempty
    rw [List.isEmpty_iff] at hempty
    exact hne (List.map_eq_nil_iff.mp hempty)
  rw [runPipeline_eq_mainStage env a t rest ha ht]
  unfold mainStage
  rw [if_neg hne']
  refine ⟨rfl, ?_, ?_⟩
  · show some (decide ((env.put (upload_url env.user_email)).status_code ∈
        ([200, 201] : List Nat))) = some true ↔ _
    rw [Option.some_inj]
    simp [List.mem_cons, decide_eq_true_iff]
  · intro h200 h201
    show _ ∈ (fetchLoop env.get env.read_excel
        (files_to_process env.user_email)).printed ++
      (if decide ((env.put (upload_url env.user_email)).status_code ∈
          ([200, 201] : List Nat)) then _ else _)
    rw [if_neg (by simp [List.mem_cons, h200, h201])]
    simp

/-- C6, witness for the amended theorem: a 403 upload response is recorded
as a failure, logged with the response body, after exactly one attempt. -/
theorem c6_witness :
    (runPipeline env403).uploadAttempts = 1 ∧
    (runPipeline env403).uploadSuccess = some false ∧
    ("Error subiendo el archivo limpio: " ++
      toString (env403.put (upload_url env403.user_email)).status_code ++
      " - " ++ (env403.put (upload_url env403.user_email)).text) ∈
      (runPipeline env403).printed := by
  have h := c6_upload_status env403 "acct" "tok" [] rfl rfl (by decide)
  exact ⟨h.1, by decide, h.2.2 (by decide) (by decide)⟩

/-- C7, counterexample. With an empty credential cache the script prints
the error and calls Python `exit()`, which raises `SystemExit(None)` and
terminates the process with exit status 0 — a success status, not the
non-zero/failure outcome the claim states (downloads are indeed never
attempted). -/
theorem c7_counterexample :
    (runPipeline envNoAccount).earlyExit = true ∧
    (runPipeline envNoAccount).getUrls = [] ∧
    (runPipeline envNoAccount).exitCode = 0 ∧
    ¬ (runPipeline envNoAccount).exitCode ≠ 0 :=
  ⟨rfl, rfl, rfl, fun hc => hc rfl⟩

/-- C7 (amended): on authentication failure (no cached account, or the
silent refresh yields no result) the process reports a descriptive error
and terminates before any download is attempted, with no fallback
interactive login (no token is ever obtained another way: nothing is
fetched, combined or uploaded) — but with exit status 0, the status of
Python `exit()`, not a non-zero one. -/
theorem c7_auth_failure_exit {α : Type} [DecidableEq α] (env : Env α)
    (h : authFails env = true) :
    (runPipeline env).earlyExit = true ∧
    (runPipeline env).exitCode = 0 ∧
    (runPipeline env).getUrls = [] ∧
    (runPipeline env).written = [] ∧
    (runPipeline env).combined = none ∧
    (runPipeline env).uploadAttempts = 0 ∧
    ((runPipeline env).printed =
        ["ERROR: No se encontro ninguna cuenta en la cache."] ∨
      (runPipeline env).printed =
        ["ERROR: No se pudo obtener token de acceso."]) := by
  cases henv : env.accounts with
  | nil =>
      unfold runPipeline
      simp [henv]
  | cons a rest =>
      cases htok : env.acquireTokenSilent a with
      | none =>
          unfold runPipeline
          simp [henv, htok]
      | some t =>
          unfold authFails at h
          rw [henv] at h
          have h' : (env.acquireTokenSilent a).isNone = true := h
          rw [htok] at h'
          exact Bool.noConfusion h'

/-- C7, witness: an account whose silent token refresh yields nothing makes
the run exit before any download. -/
theorem c7_witness :
    authFails envNoToken = true ∧
    (runPipeline envNoToken).earlyExit = true ∧
    (runPipeline envNoToken).exitCode = 0 ∧
    (runPipeline envNoToken).getUrls = [] :=
  ⟨rfl, (c7_auth_failure_exit envNoToken rfl).1,
    (c7_auth_failure_exit envNoToken rfl).2.1,
    (c7_auth_failure_exit envNoToken rfl).2.2.1⟩

/-- C8: on every exit path — the two authentication `exit()` paths, the
all-downloads-failed path and normal completion — the `atexit`-registered
`save_cache` serializes the cache back to its file iff the in-memory state
changed since it was loaded, and leaves the file unwritten otherwise. -/
theorem c8_cache_saved_iff_changed {α : Type} [DecidableEq α] (env : Env α) :
    (runPipeline env).cacheFileWritten =
      save_cache env.cache_has_state_changed env.cache_serialized ∧
    ((runPipeline env).cacheFileWritten = some env.cache_serialized ↔
      env.cache_has_state_changed = true) ∧
    (env.cache_has_state_changed = false →
      (runPipeline env).cacheFileWritten = none) := by
  have hc : (runPipeline env).cacheFileWritten =
      save_cache env.cache_has_state_changed env.cache_serialized := by
    cases henv : env.accounts with
    | nil =>
        unfold runPipeline
        simp only [henv]
    | cons a rest =>
        cases htok : env.acquireTokenSilent a with
        | none =>
            unfold runPipeline
            simp only [henv, htok]
        | some t =>
            rw [runPipeline_eq_mainStage env a t rest henv htok]
            exact mainStage_cacheFileWritten env _
  refine ⟨hc, ?_, ?_⟩
  · rw [hc]
    unfold save_cache
    cases hch : env.cache_has_state_changed
    · simp
    · simp
  · intro hfalse
    rw [hc, hfalse]
    rfl

/-- C8, witness: with an unchanged cache the file is left unwritten (early
authentication exit path); with a changed cache the serialized state is
written (normal completion path). -/
theorem c8_witness :
    (runPipeline envNoAccount).cacheFileWritten = none ∧
    (runPipeline envOk).cacheFileWritten = some "newcache" :=
  ⟨(c8_cache_saved_iff_changed envNoAccount).2.2 rfl,
    (c8_cache_saved_iff_changed envOk).2.1.mpr rfl⟩

/-- C10: a failed download leaves no trace: a non-200 response makes the
loop iteration keep the local download store and the `dataframes` list
unchanged (only the error is logged), and over the whole loop the persisted
files and collected datasets are exactly those of the successful
downloads. -/
theorem c10_failed_download_no_trace {α : Type}
    (get : String → HttpResponse) (read_excel : List Nat → DataFrame α)
    (st : FetchState α) (f : FileInfo) (h : (get f.url).status_code ≠ 200) :
    (processFile get read_excel st f).written = st.written ∧
    (processFile get read_excel st f).dataframes = st.dataframes ∧
    (∀ files : List FileInfo,
      (fetchLoop get read_excel files).written =
        (files.filter (downloadOk get)).map
          (fun g => (g.name, (get g.url).content)) ∧
      (fetchLoop get read_excel files).dataframes =
        (files.filter (downloadOk get)).map
          (fun g => read_excel (get g.url).content)) := by
  refine ⟨?_, ?_, fun files =>
    ⟨fetchLoop_written get read_excel files,
      fetchLoop_dataframes get read_excel files⟩⟩
  · simp [processFile, h]
  · simp [processFile, h]

/-- C10, witness: a 404 response for a file writes nothing for it and
appends no dataset. -/
theorem c10_witness :
    ((fun _ : String =>
        ({ status_code := 404, content := [], text := "nf" } : HttpResponse))
      "u").status_code ≠ 200 ∧
    (processFile (fun _ => ⟨404, [], "nf"⟩) bytesToDF ⟨[], [], []⟩
      ⟨"f1.xlsx", "u"⟩).written = [] ∧
    (processFile (fun _ => ⟨404, [], "nf"⟩) bytesToDF ⟨[], [], []⟩
      ⟨"f1.xlsx", "u"⟩).dataframes = [] := by
  refine ⟨by decide, ?_, ?_⟩
  · exact (c10_failed_download_no_trace (fun _ => ⟨404, [], "nf"⟩) bytesToDF
      ⟨[], [], []⟩ ⟨"f1.xlsx", "u"⟩ (by decide)).1
  · exact (c10_failed_download_no_trace (fun _ => ⟨404, [], "nf"⟩) bytesToDF
      ⟨[], [], []⟩ ⟨"f1.xlsx", "u"⟩ (by decide)).2.1

end CleanDriveClaims
